import Mathlib

/-!
# Verification of the SharedConsciousness repository

A shallow embedding of the three Python scripts of the repository
(`fetch_chatgpt.py`, `mcp_server.py`, `web_ui.py`) together with proofs of
the specification claims about them.

Modelling conventions:
* JSON values (and the Python values obtained by `json.load`) are the
  inductive type `Json`; Python `None` is `Json.null`.
* The archive is a list of date directories, each a list of files; a file
  is a name together with `Option Json` (`none` means the file's text does
  not parse as JSON).
* The nondeterministic inputs of `save_conversation` (`uuid.uuid4()`,
  `datetime.utcnow()`) are explicit parameters.
* HTTP is an oracle `Request → Response`; each client method returns the
  updated client, its result, and the list of requests it issued.
* Python's stable `sort`/`sorted` is modelled by a stable insertion sort
  (`pySorted`), which computes by `rfl`/`decide` on concrete inputs.
* A raised, uncaught Python exception is modelled by `Option`/`Except`
  failure values.
-/

/-- JSON values as parsed by `json.load`; `null` doubles as Python `None`. -/
inductive Json where
  | null : Json
  | bool : Bool → Json
  | num : Int → Json
  | str : String → Json
  | arr : List Json → Json
  | obj : List (String × Json) → Json

namespace Json

/-- First binding of a key in an association list (Python dicts have unique
keys, and all operations below agree on taking the first binding). -/
def lookupKey (kvs : List (String × Json)) (k : String) : Option Json :=
  match kvs with
  | [] => none
  | (k', v) :: rest => if k' = k then some v else lookupKey rest k

/-- `d[k]` lookup on a dict value: `none` when the value is not a dict or
the key is absent (a `KeyError`/`TypeError` in Python). -/
def getField (j : Json) (k : String) : Option Json :=
  match j with
  | .obj kvs => lookupKey kvs k
  | _ => none

/-- `d[k] = v` on a dict: replace the first binding of `k`, or append a new
binding at the end (Python dict insertion order). -/
def upsertKey (kvs : List (String × Json)) (k : String) (v : Json) :
    List (String × Json) :=
  match kvs with
  | [] => [(k, v)]
  | (k', v') :: rest =>
    if k' = k then (k, v) :: rest else (k', v') :: upsertKey rest k v

/-- `d.get(k)` on a parsed JSON object – absent keys give Python `None`. -/
def dictGet (kvs : List (String × Json)) (k : String) : Json :=
  (lookupKey kvs k).getD Json.null

/-- Python falsiness of a parsed JSON value
(`None`, `False`, `0`, `""`, `[]`, `{}`). -/
def falsy : Json → Bool
  | .null => true
  | .bool b => !b
  | .num n => n = 0
  | .str s => s = ""
  | .arr xs => xs.isEmpty
  | .obj kvs => kvs.isEmpty

/-- Python truthiness of a parsed JSON value. -/
def truthy (j : Json) : Bool := !falsy j

mutual

/-- Python `repr()` of a parsed JSON value. -/
def pyRepr : Json → String
  | .null => "None"
  | .bool true => "True"
  | .bool false => "False"
  | .num n => toString n
  | .str s => "\x27" ++ s ++ "\x27"
  | .arr xs => "[" ++ pyReprElems xs ++ "]"
  | .obj kvs => "\x7b" ++ pyReprBindings kvs ++ "\x7d"

/-- Comma-separated `repr()`s of the elements of a list. -/
def pyReprElems : List Json → String
  | [] => ""
  | [x] => pyRepr x
  | x :: y :: xs => pyRepr x ++ ", " ++ pyReprElems (y :: xs)

/-- Comma-separated `repr()`s of the bindings of a dict. -/
def pyReprBindings : List (String × Json) → String
  | [] => ""
  | [kv] => "\x27" ++ kv.1 ++ "\x27: " ++ pyRepr kv.2
  | kv :: kv' :: kvs =>
    "\x27" ++ kv.1 ++ "\x27: " ++ pyRepr kv.2 ++ ", " ++
      pyReprBindings (kv' :: kvs)

end

/-- Python `str()` of a parsed JSON value (as interpolated in f-strings). -/
def pyStr : Json → String
  | .str s => s
  | j => pyRepr j

/-- Python `len()`: defined for strings, lists and dicts, a `TypeError`
otherwise. -/
def pyLen : Json → Option Nat
  | .str s => some s.length
  | .arr xs => some xs.length
  | .obj kvs => some kvs.length
  | _ => none

/-- Python slicing `x[:n]`: defined for strings and lists, a `TypeError`
otherwise. -/
def pySliceTo (j : Json) (n : Nat) : Option Json :=
  match j with
  | .str s => some (.str (s.take n))
  | .arr xs => some (.arr (xs.take n))
  | _ => none

/-- Python iteration `for t in x`: elements of a list, characters of a
string, keys of a dict; a `TypeError` otherwise. -/
def pyIter : Json → Option (List Json)
  | .arr xs => some xs
  | .str s => some (s.data.map (fun c => .str (String.singleton c)))
  | .obj kvs => some (kvs.map (fun kv => .str kv.1))
  | _ => none

end Json

/-! ## Python string membership (`in`) and suffix tests -/

/-- Boolean infix test on character lists, structural in the haystack. -/
def isInfixB (n : List Char) : List Char → Bool
  | [] => n.isPrefixOf []
  | c :: t => n.isPrefixOf (c :: t) || isInfixB n t

/-- Python `needle in hay` on strings. -/
def pyIn (needle hay : String) : Bool := isInfixB needle.data hay.data

/-- A file name matched by the glob pattern `*.json`. -/
def hasJsonExt (n : String) : Bool := ".json".data.isSuffixOf n.data

theorem isPrefixOf_append_self : ∀ (n t : List Char),
    n.isPrefixOf (n ++ t) = true
  | [], t => by simp [List.isPrefixOf]
  | c :: cs, t => by
    show (c == c && cs.isPrefixOf (cs ++ t)) = true
    simp [isPrefixOf_append_self cs t]

theorem isInfixB_append_left (n t : List Char) :
    isInfixB n (n ++ t) = true := by
  cases h : n ++ t with
  | nil => simp only [isInfixB]; rw [← h]; exact isPrefixOf_append_self n t
  | cons c r =>
    simp only [isInfixB]
    rw [← h]
    simp [isPrefixOf_append_self n t]

theorem isInfixB_nil_left : ∀ (h : List Char), isInfixB [] h = true
  | [] => rfl
  | _ :: t => by simp [isInfixB, List.isPrefixOf]

theorem pyIn_self_ext (s t : String) : pyIn s (s ++ t) = true := by
  simp only [pyIn, String.data_append]
  exact isInfixB_append_left s.data t.data

theorem pyIn_empty (hay : String) : pyIn "" hay = true :=
  isInfixB_nil_left hay.data

theorem isSuffixOf_append_self (s t : List Char) :
    s.isSuffixOf (t ++ s) = true := by
  simp only [List.isSuffixOf, List.reverse_append]
  exact isPrefixOf_append_self s.reverse t.reverse

theorem hasJsonExt_append (s : String) :
    hasJsonExt (s ++ ".json") = true := by
  simp only [hasJsonExt, String.data_append]
  exact isSuffixOf_append_self ".json".data s.data

/-! ## Python's stable sort

`list.sort(key=...)` and `sorted(...)` are stable sorts.  We model them by a
stable insertion sort: `insortAux le a l` places `a` before the first
element `b` of `l` with `le a b`, so an element earlier in the original
list stays before later elements with an equal key. -/

def insortAux (le : α → α → Bool) (a : α) : List α → List α
  | [] => [a]
  | b :: l => if le a b then a :: b :: l else b :: insortAux le a l

/-- Stable ascending sort under the boolean comparator `le`
(for `sorted(xs, reverse=True)` use the flipped comparator). -/
def pySorted (le : α → α → Bool) : List α → List α
  | [] => []
  | a :: l => insortAux le a (pySorted le l)

theorem mem_insortAux (le : α → α → Bool) (a x : α) :
    ∀ l : List α, x ∈ insortAux le a l ↔ x = a ∨ x ∈ l
  | [] => by simp [insortAux]
  | b :: l => by
    simp only [insortAux]
    split
    · simp [or_comm, or_assoc, or_left_comm]
    · simp only [List.mem_cons, mem_insortAux le a x l]
      tauto

theorem mem_pySorted (le : α → α → Bool) (x : α) :
    ∀ l : List α, x ∈ pySorted le l ↔ x ∈ l
  | [] => Iff.rfl
  | a :: l => by
    simp only [pySorted, mem_insortAux, List.mem_cons, mem_pySorted le x l]

theorem pairwise_insortAux (le : α → α → Bool)
    (htrans : ∀ a b c, le a b = true → le b c = true → le a c = true)
    (htotal : ∀ a b, le a b = true ∨ le b a = true) (a : α) :
    ∀ l : List α, l.Pairwise (fun x y => le x y = true) →
      (insortAux le a l).Pairwise (fun x y => le x y = true)
  | [], _ => by simp [insortAux]
  | b :: l, h => by
    rcases List.pairwise_cons.mp h with ⟨hb, hl⟩
    simp only [insortAux]
    split
    · rename_i hab
      refine List.pairwise_cons.mpr ⟨?_, h⟩
      intro x hx
      rcases List.mem_cons.mp hx with rfl | hx
      · exact hab
      · exact htrans a b x hab (hb x hx)
    · rename_i hab
      have hba : le b a = true := by
        rcases htotal a b with h' | h'
        · exact absurd h' hab
        · exact h'
      refine List.pairwise_cons.mpr ⟨?_, pairwise_insortAux le htrans htotal a l hl⟩
      intro x hx
      rcases (mem_insortAux le a x l).mp hx with rfl | hx
      · exact hba
      · exact hb x hx

theorem pairwise_pySorted (le : α → α → Bool)
    (htrans : ∀ a b c, le a b = true → le b c = true → le a c = true)
    (htotal : ∀ a b, le a b = true ∨ le b a = true) :
    ∀ l : List α, (pySorted le l).Pairwise (fun x y => le x y = true)
  | [] => List.Pairwise.nil
  | a :: l =>
    pairwise_insortAux le htrans htotal a (pySorted le l)
      (pairwise_pySorted le htrans htotal l)

/-! ## The archive filesystem

`archive/` is a tree of date directories each holding JSON files; we record
for each file its name and its parsed content (`none` when the file is not
valid JSON).  Directory and file order model the on-disk iteration order of
`Path.iterdir` / `Path.glob`. -/

/-- A file of the archive: name and parsed content. -/
abbrev ArchFile := String × Option Json

/-- A date directory of the archive: directory name and files. -/
abbrev ArchDir := String × List ArchFile

/-- The archive directory tree. -/
abbrev ArchiveFS := List ArchDir

/-- Write `content` to `archive/{d}/{n}` (creating the directory when
missing, truncating an existing file): `save_dir.mkdir(parents=True,
exist_ok=True)` followed by `open(file_path, "w")`. -/
def fsWrite (fs : ArchiveFS) (d n : String) (content : Option Json) :
    ArchiveFS :=
  match fs with
  | [] => [(d, [(n, content)])]
  | (dn, files) :: rest =>
    if dn = d then (dn, writeFile files n content) :: rest
    else (dn, files) :: fsWrite rest d n content
where
  /-- Replace the content of file `n`, or create it at the end. -/
  writeFile (files : List ArchFile) (n : String) (content : Option Json) :
      List ArchFile :=
    match files with
    | [] => [(n, content)]
    | (n', c) :: rest =>
      if n' = n then (n, content) :: rest
      else (n', c) :: writeFile rest n content

/-- Content of `archive/{d}/{n}` (`none` when the directory or the file
does not exist). -/
def fileLookup (fs : ArchiveFS) (d n : String) : Option (Option Json) :=
  match fs with
  | [] => none
  | (dn, files) :: rest =>
    if dn = d then lookupFile files n else fileLookup rest d n
where
  lookupFile (files : List ArchFile) (n : String) : Option (Option Json) :=
    match files with
    | [] => none
    | (n', c) :: rest => if n' = n then some c else lookupFile rest n

/-- Total number of files in the archive. -/
def countFiles (fs : ArchiveFS) : Nat :=
  (fs.map (fun d => d.2.length)).sum

/-! ## `fetch_chatgpt.py`: the ChatGPT fetch client -/

/-- An HTTP GET request as issued by `requests.get`. -/
structure Request where
  url : String
  params : List (String × Int) := []
  cookies : List (String × String)
  headers : List (String × String)

/-- An HTTP response, with its body already parsed as a JSON object (the
endpoints used return JSON objects, read via `response.json()`). -/
structure Response where
  status : Nat
  body : List (String × Json)

/-- The HTTP world: a deterministic oracle answering each request. -/
abbrev HttpEnv := Request → Response

/-- Replace the first binding of a header, or append it
(`self.headers["authorization"] = ...`). -/
def setHeader (hs : List (String × String)) (k v : String) :
    List (String × String) :=
  match hs with
  | [] => [(k, v)]
  | (k', v') :: rest =>
    if k' = k then (k, v) :: rest else (k', v') :: setHeader rest k v

/-- First value of a header. -/
def lookupHeader (hs : List (String × String)) (k : String) : Option String :=
  match hs with
  | [] => none
  | (k', v) :: rest => if k' = k then some v else lookupHeader rest k

/-- The mutable state of `ChatGPTClient`; `access_token` is the Python
value `self.access_token` (`Json.null` is Python `None`). -/
structure ChatGPTClient where
  cookies : List (String × String)
  headers : List (String × String)
  access_token : Json

namespace ChatGPTClient

def BASE_URL : String := "https://chatgpt.com"

/-- `ChatGPTClient.__init__`. -/
def init (cookies : List (String × String)) : ChatGPTClient :=
  { cookies := cookies
    headers :=
      [("accept", "application/json"),
       ("user-agent",
        "Mozilla/5.0 (Macintosh; Intel Mac OS X 10_15_7) AppleWebKit/537.36 (KHTML, like Gecko) Chrome/141.0.0.0 Safari/537.36"),
       ("referer", "https://chatgpt.com/")]
    access_token := Json.null }

/-- Result of one client method: the updated client, the returned value,
and the requests issued during the call, in order. -/
structure Outcome (α : Type) where
  client : ChatGPTClient
  result : α
  requests : List Request

/-- The GET issued by `get_access_token`. -/
def sessionRequest (c : ChatGPTClient) : Request :=
  { url := BASE_URL ++ "/api/auth/session"
    cookies := c.cookies
    headers := c.headers }

/-- `ChatGPTClient.get_access_token`. -/
def get_access_token (env : HttpEnv) (c : ChatGPTClient) : Outcome Json :=
  let response := env (sessionRequest c)
  if response.status = 200 then
    let tok := Json.dictGet response.body "accessToken"
    let c1 : ChatGPTClient := { c with access_token := tok }
    let c2 : ChatGPTClient :=
      if tok.truthy then
        { c1 with
          headers := setHeader c1.headers "authorization"
            ("Bearer " ++ tok.pyStr) }
      else c1
    { client := c2, result := tok, requests := [sessionRequest c] }
  else { client := c, result := Json.null, requests := [sessionRequest c] }

/-- The GET issued by `get_conversation`. -/
def convRequest (c : ChatGPTClient) (conversation_id : String) : Request :=
  { url := BASE_URL ++ "/backend-api/conversation/" ++ conversation_id
    cookies := c.cookies
    headers := c.headers }

/-- `ChatGPTClient.get_conversation`. -/
def get_conversation (env : HttpEnv) (c : ChatGPTClient)
    (conversation_id : String) : Outcome (Option Json) :=
  let auth :=
    if c.access_token.truthy = false then get_access_token env c
    else { client := c, result := c.access_token, requests := [] }
  let response := env (convRequest auth.client conversation_id)
  { client := auth.client
    result :=
      if response.status = 200 then some (Json.obj response.body) else none
    requests := auth.requests ++ [convRequest auth.client conversation_id] }

/-- The GET issued by `list_conversations`. -/
def listRequest (c : ChatGPTClient) (limit offset : Int) : Request :=
  { url := BASE_URL ++ "/backend-api/conversations"
    params := [("limit", limit), ("offset", offset)]
    cookies := c.cookies
    headers := c.headers }

/-- `ChatGPTClient.list_conversations`. -/
def list_conversations (env : HttpEnv) (c : ChatGPTClient)
    (limit offset : Int) : Outcome (Option Json) :=
  let auth :=
    if c.access_token.truthy = false then get_access_token env c
    else { client := c, result := c.access_token, requests := [] }
  let response := env (listRequest auth.client limit offset)
  { client := auth.client
    result :=
      if response.status = 200 then some (Json.obj response.body) else none
    requests := auth.requests ++ [listRequest auth.client limit offset] }

end ChatGPTClient

/-! ### `ChatGPTClient.extract_messages`

The conversation mapping is the tree-shaped dict of message nodes; we model
the node dicts by structures whose `Option` fields mirror the `.get`
defaults used by the code.  Creation times (floats in the service's JSON)
are modelled as integer timestamps: only their ordering matters here. -/

/-- `msg["author"]`: a dict possibly holding a `role`. -/
structure MsgAuthor where
  role : Option String

/-- `msg["content"]`: a content type and text parts. -/
structure MsgContent where
  content_type : Option String
  parts : List String

/-- `msg["metadata"]`: whether the
`is_visually_hidden_from_conversation` flag is present and truthy. -/
structure MsgMetadata where
  is_visually_hidden_from_conversation : Bool

/-- A message held by a mapping node. -/
structure InnerMessage where
  author : Option MsgAuthor
  content : Option MsgContent
  metadata : Option MsgMetadata
  create_time : Option Int

/-- A node of the conversation mapping: optional message, parent link. -/
structure MappingNode where
  message : Option InnerMessage
  parent : Option String

/-- The `mapping` dict, in insertion order. -/
abbrev ConversationMapping := List (String × MappingNode)

/-- A message dict built by `extract_messages`. -/
structure ExtractedMessage where
  id : String
  role : String
  content : String
  create_time : Option Int
  parent : Option String
deriving DecidableEq

namespace ChatGPTClient

/-- `"\n".join(str(p) for p in parts if p)`. -/
def joinParts (parts : List String) : String :=
  String.intercalate "\n" (parts.filter (fun p => p ≠ ""))

/-- `msg.get("author", {}).get("role", "unknown")`. -/
def authorRole (msg : InnerMessage) : String :=
  ((msg.author.getD { role := none }).role).getD "unknown"

/-- The `for node_id, node in mapping.items()` loop body of
`extract_messages`: skip nodes without a message, visually hidden
messages, non-text content, and whitespace-only text. -/
def extractLoop : ConversationMapping → List ExtractedMessage
  | [] => []
  | (node_id, node) :: rest =>
    match node.message with
    | none => extractLoop rest
    | some msg =>
      if (msg.metadata.getD
          { is_visually_hidden_from_conversation := false
            }).is_visually_hidden_from_conversation then
        extractLoop rest
      else if (msg.content.getD
          { content_type := none, parts := [] }).content_type = some "text" then
        let text :=
          joinParts (msg.content.getD { content_type := none, parts := [] }).parts
        if text.trim ≠ "" then
          { id := node_id
            role := authorRole msg
            content := text
            create_time := msg.create_time
            parent := node.parent } :: extractLoop rest
        else extractLoop rest
      else extractLoop rest

/-- The sort key `m.get("create_time") or 0`. -/
def sortKey (m : ExtractedMessage) : Int := m.create_time.getD 0

/-- `ChatGPTClient.extract_messages` applied to the conversation's
`mapping`: collect readable messages, then
`messages.sort(key=lambda m: m.get("create_time") or 0)`. -/
def extract_messages (mapping : ConversationMapping) :
    List ExtractedMessage :=
  pySorted (fun a b => decide (sortKey a ≤ sortKey b)) (extractLoop mapping)

end ChatGPTClient

/-! ## `mcp_server.py`: the save endpoint -/

namespace McpServer

/-- What one `save_conversation` call produces: the archive after the
write, the JSON payload written to the file, and the parsed JSON of the
returned `json.dumps` string. -/
structure SaveOutcome where
  archive : ArchiveFS
  payload : Json
  result : Json
  file_path : String

/-- `save_conversation` of `mcp_server.py`.  `conversation_id` is the
`str(uuid.uuid4())` drawn by the call, `saved_at_iso` the
`datetime.utcnow().isoformat()` timestamp and `date_str` its
`strftime("%Y-%m-%d")` date bucket; they are parameters because they are
the call's nondeterministic inputs. -/
def save_conversation (archive : ArchiveFS)
    (conversation_id saved_at_iso date_str : String)
    (title summary : String) (messages : List Json)
    (tags key_points : Option (List String)) : SaveOutcome :=
  let payload : Json := Json.obj
    [("id", .str conversation_id),
     ("title", .str title),
     ("summary", .str summary),
     ("messages", .arr messages),
     ("tags", .arr ((tags.getD []).map Json.str)),
     ("key_points", .arr ((key_points.getD []).map Json.str)),
     ("saved_at", .str saved_at_iso),
     ("message_count", .num messages.length)]
  let file_path := "archive/" ++ date_str ++ "/" ++ (conversation_id ++ ".json")
  { archive :=
      fsWrite archive date_str (conversation_id ++ ".json") (some payload)
    payload := payload
    result := Json.obj
      [("status", .str "success"),
       ("id", .str conversation_id),
       ("title", .str title),
       ("message_count", .num messages.length),
       ("saved_at", .str saved_at_iso),
       ("file_path", .str file_path)]
    file_path := file_path }

end McpServer

/-! ## `web_ui.py`: the browsing UI -/

/-- Lexicographic comparison of character lists by code point (how Python
compares the path strings that `sorted` receives). -/
def charListLe : List Char → List Char → Bool
  | [], _ => true
  | _ :: _, [] => false
  | c :: cs, d :: ds =>
    if c.toNat < d.toNat then true
    else if d.toNat < c.toNat then false
    else charListLe cs ds

/-- Python `a <= b` on strings. -/
def strLeB (a b : String) : Bool := charListLe a.data b.data

namespace WebUI

/-- `get_all_conversations`: scan the date directories (sorted descending,
as `sorted(ARCHIVE_DIR.iterdir(), reverse=True)`), in each the `*.json`
files (sorted descending), parse each and tag it with its path; files
whose load or `conv["_file"]` assignment raises are skipped by the
`try`/`except`. -/
def get_all_conversations (fs : ArchiveFS) : List Json :=
  (pySorted (fun a b => strLeB b.1 a.1) fs).flatMap (fun dir =>
    (pySorted (fun a b => strLeB b.1 a.1)
        (dir.2.filter (fun f => hasJsonExt f.1))).filterMap (fun f =>
      match f.2 with
      | some (Json.obj kvs) =>
        some (Json.obj (Json.upsertKey kvs "_file"
          (Json.str ("archive/" ++ dir.1 ++ "/" ++ f.1))))
      | _ => none))

/-- `get_conversation` of `web_ui.py`: first `*.json` file whose name
contains `conv_id` as a substring, in directory iteration order;
`Except.error` models the uncaught exception raised by `json.load` on a
file that is not valid JSON. -/
def get_conversation (fs : ArchiveFS) (conv_id : String) :
    Except Unit (Option Json) :=
  match fs with
  | [] => .ok none
  | dir :: rest =>
    match (dir.2.filter (fun f => hasJsonExt f.1)).find?
        (fun f => pyIn conv_id f.1) with
    | some f =>
      match f.2 with
      | some j => .ok (some j)
      | none => .error ()
    | none => get_conversation rest conv_id

/-- Literal segment of the `base_html` page template. -/
def basePart1 : String :=
  "<!DOCTYPE html>
<html lang=\"en\">
<head>
    <meta charset=\"UTF-8\">
    <meta name=\"viewport\" content=\"width=device-width, initial-scale=1.0\">
    <title>"

/-- Literal segment of the `base_html` page template. -/
def basePart2 : String :=
  " - Shared Consciousness</title>
    <style>
        * \x7b margin: 0; padding: 0; box-sizing: border-box; \x7d
        body \x7b
            font-family: -apple-system, BlinkMacSystemFont, \x27Segoe UI\x27, Roboto, sans-serif;
            background: #0a0a0a;
            color: #e5e5e5;
            min-height: 100vh;
        \x7d
        .container \x7b max-width: 900px; margin: 0 auto; padding: 20px; \x7d

        /* Header */
        header \x7b
            border-bottom: 1px solid #222;
            padding: 16px 0;
            margin-bottom: 32px;
        \x7d
        .header-inner \x7b
            display: flex;
            justify-content: space-between;
            align-items: center;
            max-width: 900px;
            margin: 0 auto;
            padding: 0 20px;
        \x7d
        .logo \x7b
            font-size: 20px;
            font-weight: 600;
            color: #fff;
            text-decoration: none;
        \x7d
        .logo span \x7b color: #3b82f6; \x7d
        nav \x7b display: flex; gap: 8px; \x7d
        .nav-link \x7b
            color: #888;
            text-decoration: none;
            padding: 8px 16px;
            border-radius: 6px;
            font-size: 14px;
            transition: all 0.2s;
        \x7d
        .nav-link:hover \x7b color: #e5e5e5; background: #1a1a1a; \x7d
        .nav-link.active \x7b color: #fff; background: #1a1a1a; \x7d

        /* Page titles */
        h1 \x7b font-size: 28px; font-weight: 600; margin-bottom: 8px; \x7d
        .subtitle \x7b color: #666; margin-bottom: 24px; \x7d

        /* Conversation cards */
        .conv-list \x7b display: flex; flex-direction: column; gap: 12px; \x7d
        .conv-card \x7b
            background: #111;
            border: 1px solid #222;
            border-radius: 8px;
            padding: 16px;
            text-decoration: none;
            color: inherit;
            transition: all 0.2s;
        \x7d
        .conv-card:hover \x7b border-color: #333; background: #151515; \x7d
        .conv-title \x7b font-size: 16px; font-weight: 500; margin-bottom: 6px; \x7d
        .conv-summary \x7b color: #888; font-size: 14px; line-height: 1.5; margin-bottom: 12px; \x7d
        .conv-meta \x7b display: flex; gap: 16px; font-size: 12px; color: #555; \x7d
        .conv-meta span \x7b display: flex; align-items: center; gap: 4px; \x7d
        .tag \x7b
            display: inline-block;
            background: #1a1a2e;
            color: #6366f1;
            padding: 2px 8px;
            border-radius: 4px;
            font-size: 11px;
            margin-right: 4px;
        \x7d

        /* Detail view */
        .back-link \x7b color: #3b82f6; text-decoration: none; font-size: 14px; margin-bottom: 16px; display: inline-block; \x7d
        .back-link:hover \x7b text-decoration: underline; \x7d
        .detail-header \x7b margin-bottom: 24px; \x7d
        .detail-tags \x7b margin: 12px 0; \x7d
        .key-points \x7b background: #111; border-radius: 8px; padding: 16px; margin-bottom: 24px; \x7d
        .key-points h3 \x7b font-size: 14px; color: #888; margin-bottom: 12px; \x7d
        .key-points ul \x7b padding-left: 20px; \x7d
        .key-points li \x7b color: #ccc; margin-bottom: 6px; font-size: 14px; \x7d

        /* Messages */
        .messages \x7b display: flex; flex-direction: column; gap: 16px; \x7d
        .message \x7b padding: 16px; border-radius: 8px; \x7d
        .message.user \x7b background: #1a1a2e; border-left: 3px solid #6366f1; \x7d
        .message.assistant \x7b background: #111; border-left: 3px solid #22c55e; \x7d
        .message-role \x7b font-size: 11px; text-transform: uppercase; color: #666; margin-bottom: 8px; font-weight: 600; \x7d
        .message-content \x7b font-size: 14px; line-height: 1.6; white-space: pre-wrap; \x7d

        /* Trending */
        .trending-card \x7b
            background: #111;
            border: 1px solid #222;
            border-radius: 8px;
            padding: 16px;
            display: flex;
            justify-content: space-between;
            align-items: center;
        \x7d
        .trending-info h3 \x7b font-size: 15px; margin-bottom: 4px; \x7d
        .trending-team \x7b font-size: 12px; color: #666; \x7d
        .trending-stats \x7b display: flex; gap: 16px; font-size: 13px; color: #888; \x7d

        /* Roadmap */
        .roadmap-item \x7b
            background: #111;
            border: 1px solid #222;
            border-radius: 8px;
            padding: 16px;
            display: flex;
            justify-content: space-between;
            align-items: center;
        \x7d
        .roadmap-info h3 \x7b font-size: 15px; margin-bottom: 4px; \x7d
        .roadmap-desc \x7b font-size: 13px; color: #666; \x7d
        .status-badge \x7b
            font-size: 11px;
            padding: 4px 10px;
            border-radius: 12px;
            font-weight: 500;
        \x7d
        .status-badge.coming-soon \x7b background: #1e3a2f; color: #22c55e; \x7d
        .status-badge.planned \x7b background: #1e293b; color: #3b82f6; \x7d
        .status-badge.exploring \x7b background: #2d2418; color: #f59e0b; \x7d

        /* Empty state */
        .empty \x7b text-align: center; padding: 60px 20px; color: #555; \x7d
        .empty h2 \x7b color: #888; margin-bottom: 8px; \x7d
    </style>
</head>
<body>
    <header>
        <div class=\"header-inner\">
            <a href=\"/\" class=\"logo\">Shared <span>Consciousness</span></a>
            <nav>"

/-- Literal segment of the `base_html` page template. -/
def basePart3 : String :=
  "</nav>
        </div>
    </header>
    <div class=\"container\">
        "

/-- Literal segment of the `base_html` page template. -/
def basePart4 : String :=
  "
    </div>
</body>
</html>"

/-- `base_html`: the fixed page template around a title, the navigation
bar, and the page content. -/
def base_html (title : String) (content : String) (active : String) :
    String :=
  let nav_items : List (String × String × String) :=
    [("home", "/", "Archive"),
     ("trending", "/trending", "Trending"),
     ("roadmap", "/roadmap", "Roadmap")]
  let nav_html := String.join (nav_items.map (fun it =>
    "<a href=\"" ++ it.2.1 ++ "\" class=\"nav-link " ++
      (if it.1 = active then "active" else "") ++ "\">" ++ it.2.2 ++ "</a>"))
  basePart1 ++ title ++ basePart2 ++ nav_html ++ basePart3 ++ content ++
    basePart4

/-- One conversation card of the archive list page; `none` models the
exception the card f-string raises (`conv["id"]` on a conversation with no
`id` key, slicing a non-sliceable `summary`/`saved_at`/`tags` value). -/
def convCard (conv : Json) : Option String := do
  let kvs ← match conv with | .obj kvs => some kvs | _ => none
  let tags3 ← Json.pySliceTo ((Json.lookupKey kvs "tags").getD (.arr [])) 3
  let tagElems ← Json.pyIter tags3
  let tags_html := String.join (tagElems.map (fun t =>
    "<span class=\"tag\">" ++ t.pyStr ++ "</span>"))
  let saved ← Json.pySliceTo ((Json.lookupKey kvs "saved_at").getD (.str "")) 10
  let idj ← Json.lookupKey kvs "id"
  let summary := (Json.lookupKey kvs "summary").getD (.str "")
  let sum200 ← Json.pySliceTo summary 200
  let sumLen ← Json.pyLen summary
  pure ("
            <a href=\"/conversation/" ++ idj.pyStr ++ "\" class=\"conv-card\">
                <div class=\"conv-title\">" ++
    ((Json.lookupKey kvs "title").getD (.str "Untitled")).pyStr ++ "</div>
                <div class=\"conv-summary\">" ++ sum200.pyStr ++
    (if sumLen > 200 then "..." else "") ++ "</div>
                <div style=\"margin-bottom: 8px;\">" ++ tags_html ++ "</div>
                <div class=\"conv-meta\">
                    <span>" ++
    ((Json.lookupKey kvs "message_count").getD (.num 0)).pyStr ++
    " messages</span>
                    <span>" ++ saved.pyStr ++ "</span>
                </div>
            </a>
            ")

/-- The empty-archive content of the home page. -/
def emptyHomeContent : String :=
  "
        <h1>Conversation Archive</h1>
        <p class=\"subtitle\">Your team\x27s saved ChatGPT conversations</p>
        <div class=\"empty\">
            <h2>No conversations yet</h2>
            <p>Save a conversation from ChatGPT to see it here.</p>
        </div>
        "

/-- The home page content around the list of cards. -/
def homeListContent (cards : List String) : String :=
  "
        <h1>Conversation Archive</h1>
        <p class=\"subtitle\">Your team\x27s saved ChatGPT conversations</p>
        <div class=\"conv-list\">
            " ++ String.join cards ++ "
        </div>
        "

/-- The `for conv in conversations` card loop of `home`: all cards, or
`none` as soon as one raises. -/
def renderCards : List Json → Option (List String)
  | [] => some []
  | conv :: rest => do
    let card ← convCard conv
    let cards ← renderCards rest
    pure (card :: cards)

/-- The `home` route handler; `none` models an uncaught exception while
rendering a card (an HTTP 500). -/
def home (fs : ArchiveFS) : Option String :=
  let conversations := get_all_conversations fs
  if conversations.isEmpty then
    some (base_html "Archive" emptyHomeContent "home")
  else do
    let cards ← renderCards conversations
    pure (base_html "Archive" (homeListContent cards) "home")

/-- The `/api/conversations` route handler: the JSON list served. -/
def api_conversations (fs : ArchiveFS) : List Json :=
  get_all_conversations fs

/-- The `for msg in conv.get("messages", [])` loop of
`conversation_detail`: the message blocks, or `none` when one raises
(`msg.get` on a non-dict message). -/
def renderMessages : List Json → Option (List String)
  | [] => some []
  | msg :: rest => do
    let mkvs ← match msg with | Json.obj mk => some mk | _ => none
    let role := (Json.lookupKey mkvs "role").getD (.str "user")
    let content := (Json.lookupKey mkvs "content").getD (.str "")
    let blocks ← renderMessages rest
    pure (("
        <div class=\"message " ++ role.pyStr ++ "\">
            <div class=\"message-role\">" ++ role.pyStr ++ "</div>
            <div class=\"message-content\">" ++ content.pyStr ++ "</div>
        </div>
        ") :: blocks)

/-- The detail page body for a (truthy) conversation value; `none` models
an exception raised while rendering (an HTTP 500). -/
def detailPage (conv : Json) : Option String := do
  let kvs ← match conv with | .obj kvs => some kvs | _ => none
  let tagL ← Json.pyIter ((Json.lookupKey kvs "tags").getD (.arr []))
  let tags_html := String.join (tagL.map (fun t =>
    "<span class=\"tag\">" ++ t.pyStr ++ "</span>"))
  let key_points_html ←
    if ((Json.lookupKey kvs "key_points").getD Json.null).truthy then do
      let kp ← Json.lookupKey kvs "key_points"
      let kpL ← Json.pyIter kp
      pure ("
        <div class=\"key-points\">
            <h3>Key Points</h3>
            <ul>" ++ String.join (kpL.map (fun p => "<li>" ++ p.pyStr ++ "</li>")) ++ "</ul>
        </div>
        ")
    else pure ""
  let msgsL ← Json.pyIter ((Json.lookupKey kvs "messages").getD (.arr []))
  let messages_html ← renderMessages msgsL
  let saved ← Json.pySliceTo ((Json.lookupKey kvs "saved_at").getD (.str "")) 10
  pure ("
    <a href=\"/\" class=\"back-link\">&larr; Back to Archive</a>
    <div class=\"detail-header\">
        <h1>" ++ ((Json.lookupKey kvs "title").getD (.str "Untitled")).pyStr ++ "</h1>
        <p class=\"subtitle\">" ++ ((Json.lookupKey kvs "summary").getD (.str "")).pyStr ++ "</p>
        <div class=\"detail-tags\">" ++ tags_html ++ "</div>
        <div class=\"conv-meta\">
            <span>" ++ ((Json.lookupKey kvs "message_count").getD (.num 0)).pyStr ++ " messages</span>
            <span>Saved " ++ saved.pyStr ++ "</span>
        </div>
    </div>
    " ++ key_points_html ++ "
    <h2 style=\"font-size: 18px; margin-bottom: 16px;\">Conversation</h2>
    <div class=\"messages\">
        " ++ String.join messages_html ++ "
    </div>
    ")

/-- The `conversation_detail` route handler: HTTP status and page body;
`Except.error` models an uncaught exception (an HTTP 500). -/
def conversation_detail (fs : ArchiveFS) (conv_id : String) :
    Except Unit (Nat × String) :=
  match get_conversation fs conv_id with
  | .error () => .error ()
  | .ok conv =>
    match conv with
    | none =>
      .ok (404, base_html "Not Found" "<h1>Conversation not found</h1>" "home")
    | some j =>
      if j.falsy then
        .ok (404,
          base_html "Not Found" "<h1>Conversation not found</h1>" "home")
      else
        match detailPage j with
        | some body =>
          .ok (200, base_html (((Json.getField j "title")).getD
            (.str "Conversation")).pyStr body "home")
        | none => .error ()

/-- The HTTP status returned by the `conversation_detail` route. -/
def conversationDetailStatus (fs : ArchiveFS) (conv_id : String) :
    Except Unit Nat :=
  (conversation_detail fs conv_id).map Prod.fst

/-- A hardcoded trending entry. -/
structure TrendingItem where
  id : String
  title : String
  views : Nat
  saves : Nat
  team : String

/-- `DUMMY_TRENDING` of `web_ui.py`. -/
def DUMMY_TRENDING : List TrendingItem :=
  [{ id := "trending-1", title := "Q4 Planning Strategy", views := 342,
     saves := 28, team := "Product" },
   { id := "trending-2", title := "API Rate Limiting Discussion",
     views := 289, saves := 45, team := "Engineering" },
   { id := "trending-3", title := "Customer Onboarding Flow", views := 256,
     saves := 19, team := "Growth" },
   { id := "trending-4", title := "Brand Guidelines Update", views := 198,
     saves := 32, team := "Design" },
   { id := "trending-5", title := "Incident Postmortem: Dec 5",
     views := 187, saves := 67, team := "SRE" }]

/-- A hardcoded roadmap entry. -/
structure RoadmapFeature where
  name : String
  status : String
  description : String

/-- `ROADMAP_FEATURES` of `web_ui.py`. -/
def ROADMAP_FEATURES : List RoadmapFeature :=
  [{ name := "Full-text Search", status := "coming-soon",
     description := "Search across all conversations" },
   { name := "Team Workspaces", status := "coming-soon",
     description := "Organize by team or project" },
   { name := "AI Auto-tagging", status := "planned",
     description := "Automatic categorization" },
   { name := "Slack Integration", status := "planned",
     description := "Share directly to channels" },
   { name := "Analytics Dashboard", status := "planned",
     description := "Usage insights and trends" },
   { name := "Export to Notion/Confluence", status := "exploring",
     description := "Sync to your wiki" }]

/-- Python `str.title()`: uppercase each alphabetic character that follows
a non-alphabetic one, lowercase the rest. -/
def pyTitleAux : List Char → Bool → List Char
  | [], _ => []
  | c :: cs, prevAlpha =>
    (if c.isAlpha then (if prevAlpha then c.toLower else c.toUpper) else c)
      :: pyTitleAux cs c.isAlpha

/-- Python `str.title()`. -/
def pyTitle (s : String) : String := String.mk (pyTitleAux s.data false)

/-- One card of the trending page (`i` is the 1-based rank). -/
def trendingCard (i : Nat) (item : TrendingItem) : String :=
  "
        <div class=\"trending-card\">
            <div class=\"trending-info\">
                <h3>" ++ toString i ++ ". " ++ item.title ++ "</h3>
                <div class=\"trending-team\">" ++ item.team ++ "</div>
            </div>
            <div class=\"trending-stats\">
                <span>" ++ toString item.views ++ " views</span>
                <span>" ++ toString item.saves ++ " saves</span>
            </div>
        </div>
        "

/-- The `trending` route handler: renders only `DUMMY_TRENDING`. -/
def trending (_fs : ArchiveFS) : String :=
  let cards := DUMMY_TRENDING.enum.map (fun p => trendingCard (p.1 + 1) p.2)
  base_html "Trending"
    ("
    <h1>Trending Conversations</h1>
    <p class=\"subtitle\">Most viewed across your organization this week</p>
    <div class=\"conv-list\">
        " ++ String.join cards ++ "
    </div>
    ") "trending"

/-- One item of the roadmap page. -/
def roadmapItem (feature : RoadmapFeature) : String :=
  "
        <div class=\"roadmap-item\">
            <div class=\"roadmap-info\">
                <h3>" ++ feature.name ++ "</h3>
                <div class=\"roadmap-desc\">" ++ feature.description ++ "</div>
            </div>
            <span class=\"status-badge " ++ feature.status ++ "\">" ++
    pyTitle (feature.status.replace "-" " ") ++ "</span>
        </div>
        "

/-- The `roadmap` route handler: renders only `ROADMAP_FEATURES`. -/
def roadmap (_fs : ArchiveFS) : String :=
  let items := ROADMAP_FEATURES.map roadmapItem
  base_html "Roadmap"
    ("
    <h1>Roadmap</h1>
    <p class=\"subtitle\">What we\x27re building next</p>
    <div class=\"conv-list\">
        " ++ String.join items ++ "
    </div>
    ") "roadmap"

end WebUI

/-! ## Filesystem lemmas for `fsWrite` -/

theorem lookupFile_writeFile_self (files : List ArchFile) (n : String)
    (c : Option Json) :
    fileLookup.lookupFile (fsWrite.writeFile files n c) n = some c := by
  induction files with
  | nil => simp [fsWrite.writeFile, fileLookup.lookupFile]
  | cons f rest ih =>
    obtain ⟨n', c'⟩ := f
    by_cases h : n' = n
    · simp [fsWrite.writeFile, fileLookup.lookupFile, h]
    · simp only [fsWrite.writeFile, h, if_false]
      simp [fileLookup.lookupFile, h, ih]

theorem lookupFile_writeFile_other (files : List ArchFile) (n n' : String)
    (c : Option Json) (h : n' ≠ n) :
    fileLookup.lookupFile (fsWrite.writeFile files n c) n' =
      fileLookup.lookupFile files n' := by
  induction files with
  | nil =>
    simp [fsWrite.writeFile, fileLookup.lookupFile, Ne.symm h]
  | cons f rest ih =>
    obtain ⟨m, c'⟩ := f
    by_cases hf : m = n
    · simp only [fsWrite.writeFile, hf, if_true]
      simp [fileLookup.lookupFile, Ne.symm h, hf]
    · simp only [fsWrite.writeFile, hf, if_false]
      simp [fileLookup.lookupFile, ih]

theorem length_writeFile_fresh (files : List ArchFile) (n : String)
    (c : Option Json) (h : fileLookup.lookupFile files n = none) :
    (fsWrite.writeFile files n c).length = files.length + 1 := by
  induction files with
  | nil => simp [fsWrite.writeFile]
  | cons f rest ih =>
    obtain ⟨m, c'⟩ := f
    by_cases hf : m = n
    · simp [fileLookup.lookupFile, hf] at h
    · simp only [fileLookup.lookupFile, hf, if_false] at h
      simp [fsWrite.writeFile, hf, ih h]

theorem fileLookup_fsWrite_self (fs : ArchiveFS) (d n : String)
    (c : Option Json) :
    fileLookup (fsWrite fs d n c) d n = some c := by
  induction fs with
  | nil => simp [fsWrite, fileLookup, fileLookup.lookupFile]
  | cons dir rest ih =>
    obtain ⟨dn, files⟩ := dir
    by_cases hd : dn = d
    · simp [fsWrite, fileLookup, hd, lookupFile_writeFile_self]
    · simp [fsWrite, fileLookup, hd, ih]

theorem fileLookup_fsWrite_other (fs : ArchiveFS) (d n d' n' : String)
    (c : Option Json) (h : ¬(d' = d ∧ n' = n)) :
    fileLookup (fsWrite fs d n c) d' n' = fileLookup fs d' n' := by
  induction fs with
  | nil =>
    by_cases hd : d = d'
    · have hn : ¬(n = n') := fun e => h ⟨hd.symm, e.symm⟩
      simp [fsWrite, fileLookup, hd, fileLookup.lookupFile, hn]
    · simp [fsWrite, fileLookup, hd]
  | cons dir rest ih =>
    obtain ⟨dn, files⟩ := dir
    by_cases hd : dn = d
    · subst hd
      by_cases hd' : dn = d'
      · have hn : n' ≠ n := fun e => h ⟨hd'.symm, e⟩
        simp [fsWrite, fileLookup, hd',
          lookupFile_writeFile_other _ _ _ _ hn]
      · simp [fsWrite, fileLookup, hd']
    · by_cases hd' : dn = d'
      · have hdd : ¬d' = d := fun e => hd (hd'.trans e)
        simp [fsWrite, fileLookup, hd, hd', hdd]
      · simp [fsWrite, fileLookup, hd, hd', ih]

theorem countFiles_cons (dn : String) (files : List ArchFile)
    (rest : ArchiveFS) :
    countFiles ((dn, files) :: rest) = files.length + countFiles rest := by
  simp [countFiles]

theorem countFiles_fsWrite_fresh (fs : ArchiveFS) (d n : String)
    (c : Option Json) (h : fileLookup fs d n = none) :
    countFiles (fsWrite fs d n c) = countFiles fs + 1 := by
  induction fs with
  | nil => simp [fsWrite, countFiles]
  | cons dir rest ih =>
    obtain ⟨dn, files⟩ := dir
    by_cases hd : dn = d
    · simp only [fileLookup, hd, if_true] at h
      simp only [fsWrite, hd, if_true]
      rw [countFiles_cons, countFiles_cons, length_writeFile_fresh _ _ _ h]
      omega
    · simp only [fileLookup, hd, if_false] at h
      simp only [fsWrite, hd, if_false]
      rw [countFiles_cons, countFiles_cons, ih h]
      omega

/-! ## Claim C1: correctness of `save_conversation` -/

/-- C1: every `save_conversation(title, summary, messages, tags,
key_points)` call, with its freshly drawn UUID `cid` and UTC timestamp
`iso`/`date`, writes exactly one JSON file at `archive/{date}/{cid}.json`
(all other archive paths are untouched) whose content has the fields
`id`, `title`, `summary`, `messages`, `tags` (`[]` when `None`),
`key_points` (`[]` when `None`), `saved_at` and `message_count` equal to
the number of messages, and returns a JSON object with status
`"success"`, that id, the title, the message count, the timestamp and the
file path. -/
theorem save_conversation_correct
    (archive : ArchiveFS) (cid iso date title summary : String)
    (messages : List Json) (tags key_points : Option (List String))
    (out : McpServer.SaveOutcome)
    (hout : out = McpServer.save_conversation archive cid iso date title
      summary messages tags key_points)
    (hfresh : fileLookup archive date (cid ++ ".json") = none) :
    (fileLookup out.archive date (cid ++ ".json") = some (some out.payload)
      ∧ countFiles out.archive = countFiles archive + 1
      ∧ (∀ d n, ¬(d = date ∧ n = cid ++ ".json") →
          fileLookup out.archive d n = fileLookup archive d n))
    ∧ (out.payload.getField "id" = some (.str cid)
      ∧ out.payload.getField "title" = some (.str title)
      ∧ out.payload.getField "summary" = some (.str summary)
      ∧ out.payload.getField "messages" = some (.arr messages)
      ∧ out.payload.getField "tags" =
          some (.arr ((tags.getD []).map Json.str))
      ∧ out.payload.getField "key_points" =
          some (.arr ((key_points.getD []).map Json.str))
      ∧ out.payload.getField "saved_at" = some (.str iso)
      ∧ out.payload.getField "message_count" =
          some (.num messages.length))
    ∧ (out.result.getField "status" = some (.str "success")
      ∧ out.result.getField "id" = some (.str cid)
      ∧ out.result.getField "title" = some (.str title)
      ∧ out.result.getField "message_count" =
          some (.num messages.length)
      ∧ out.result.getField "saved_at" = some (.str iso)
      ∧ out.result.getField "file_path" =
          some (.str ("archive/" ++ date ++ "/" ++ (cid ++ ".json")))) := by
  subst hout
  refine ⟨⟨?_, ?_, ?_⟩, ?_, ?_⟩
  · exact fileLookup_fsWrite_self archive date (cid ++ ".json") _
  · exact countFiles_fsWrite_fresh archive date (cid ++ ".json") _ hfresh
  · intro d n hdn
    exact fileLookup_fsWrite_other archive date (cid ++ ".json") d n _ hdn
  · refine ⟨rfl, rfl, rfl, rfl, rfl, rfl, rfl, rfl⟩
  · refine ⟨rfl, rfl, rfl, rfl, rfl, rfl⟩

/-- Witness for C1 at a concrete input: saving one message into the empty
archive bumps the file count to one and records `message_count = 1`. -/
theorem save_conversation_correct_witness :
    fileLookup ([] : ArchiveFS) "2025-12-01" ("abc" ++ ".json") = none ∧
    countFiles (McpServer.save_conversation [] "abc"
      "2025-12-01T00:00:00" "2025-12-01" "T" "S"
      [Json.obj [("role", Json.str "user"), ("content", Json.str "hi")]]
      none none).archive = countFiles ([] : ArchiveFS) + 1 ∧
    (McpServer.save_conversation [] "abc" "2025-12-01T00:00:00"
      "2025-12-01" "T" "S"
      [Json.obj [("role", Json.str "user"), ("content", Json.str "hi")]]
      none none).payload.getField "message_count" = some (Json.num 1) := by
  have h := save_conversation_correct [] "abc" "2025-12-01T00:00:00"
    "2025-12-01" "T" "S"
    [Json.obj [("role", Json.str "user"), ("content", Json.str "hi")]]
    none none _ rfl rfl
  exact ⟨rfl, h.1.2.1, h.2.1.2.2.2.2.2.2.2⟩

/-! ## Claim C7: the archive invariant is preserved -/

/-- C7: a successful save with a fresh UUID adds exactly one new JSON file,
under the subdirectory named for the save date, and neither modifies nor
deletes any existing archive file.  (The web UI's readers
`WebUI.get_all_conversations` / `WebUI.get_conversation` are pure
functions of the archive in this embedding — the code only ever opens
files for reading — so they cannot change it.) -/
theorem archive_invariant_preserved
    (archive : ArchiveFS) (cid iso date title summary : String)
    (messages : List Json) (tags key_points : Option (List String))
    (out : McpServer.SaveOutcome)
    (hout : out = McpServer.save_conversation archive cid iso date title
      summary messages tags key_points)
    (hfresh : fileLookup archive date (cid ++ ".json") = none) :
    (∀ d n c, fileLookup archive d n = some c →
      fileLookup out.archive d n = some c)
    ∧ fileLookup out.archive date (cid ++ ".json") = some (some out.payload)
    ∧ countFiles out.archive = countFiles archive + 1 := by
  subst hout
  refine ⟨?_, ?_, ?_⟩
  · intro d n c hc
    by_cases hdn : d = date ∧ n = cid ++ ".json"
    · rcases hdn with ⟨rfl, rfl⟩
      rw [hfresh] at hc
      cases hc
    · exact (fileLookup_fsWrite_other archive date (cid ++ ".json") d n
        _ hdn).trans hc
  · exact fileLookup_fsWrite_self archive date (cid ++ ".json") _
  · exact countFiles_fsWrite_fresh archive date (cid ++ ".json") _ hfresh

/-- Witness for C7 at a concrete input: saving into an archive that
already holds one file keeps that file intact and adds exactly one. -/
theorem archive_invariant_preserved_witness :
    fileLookup [("2025-11-30",
        [("old.json", some (Json.obj []))])] "2025-12-01"
      ("abc" ++ ".json") = none ∧
    fileLookup (McpServer.save_conversation
        [("2025-11-30", [("old.json", some (Json.obj []))])]
        "abc" "2025-12-01T00:00:00" "2025-12-01" "T" "S" [] none
        none).archive "2025-11-30" "old.json" = some (some (Json.obj []))
    ∧ countFiles (McpServer.save_conversation
        [("2025-11-30", [("old.json", some (Json.obj []))])]
        "abc" "2025-12-01T00:00:00" "2025-12-01" "T" "S" [] none
        none).archive = 2 := by
  have h := archive_invariant_preserved
    [("2025-11-30", [("old.json", some (Json.obj []))])]
    "abc" "2025-12-01T00:00:00" "2025-12-01" "T" "S" [] none none _ rfl rfl
  exact ⟨rfl, h.1 "2025-11-30" "old.json" (some (Json.obj [])) rfl, h.2.2⟩

/-! ## Claim C5: trending and roadmap ignore the archive -/

/-- C5: the `/trending` and `/roadmap` pages render only hardcoded sample
data: their HTML output is identical for any two archive states. -/
theorem trending_roadmap_constant (fs1 fs2 : ArchiveFS) :
    WebUI.trending fs1 = WebUI.trending fs2 ∧
    WebUI.roadmap fs1 = WebUI.roadmap fs2 :=
  ⟨rfl, rfl⟩

/-! ## Claims C2 and C8: `extract_messages` -/

/-- The decision taken by the `extract_messages` loop on one mapping
entry: `some` exactly when the node carries a kept message.  (Proved equal
to the loop below; this form makes membership reasoning direct.) -/
def extractOne : String × MappingNode → Option ExtractedMessage
  | (node_id, node) =>
    match node.message with
    | none => none
    | some msg =>
      if (msg.metadata.getD
          { is_visually_hidden_from_conversation := false
            }).is_visually_hidden_from_conversation then none
      else if (msg.content.getD
          { content_type := none, parts := [] }).content_type = some "text" then
        let text := ChatGPTClient.joinParts
          (msg.content.getD { content_type := none, parts := [] }).parts
        if text.trim ≠ "" then
          some { id := node_id
                 role := ChatGPTClient.authorRole msg
                 content := text
                 create_time := msg.create_time
                 parent := node.parent }
        else none
      else none

theorem extractLoop_eq_filterMap : ∀ mapping : ConversationMapping,
    ChatGPTClient.extractLoop mapping = mapping.filterMap extractOne
  | [] => rfl
  | (node_id, node) :: rest => by
    have ih := extractLoop_eq_filterMap rest
    simp only [ChatGPTClient.extractLoop, List.filterMap_cons]
    cases hmsg : node.message with
    | none => simp [extractOne, hmsg, ih]
    | some msg =>
      simp only [extractOne, hmsg]
      by_cases hhid : (msg.metadata.getD
          { is_visually_hidden_from_conversation := false
            }).is_visually_hidden_from_conversation
      · simp [hhid, ih]
      · by_cases hct : (msg.content.getD
            { content_type := none, parts := [] }).content_type = some "text"
        · by_cases htr : (ChatGPTClient.joinParts
              (msg.content.getD
                { content_type := none, parts := [] }).parts).trim ≠ ""
          · simp [hhid, hct, htr, ih]
          · simp [hhid, hct, htr, ih]
        · simp [hhid, hct, ih]

/-- C2: `extract_messages` returns its messages in non-decreasing order of
creation time, a missing (`None`) `create_time` sorting as `0`. -/
theorem extract_messages_time_ordered (mapping : ConversationMapping) :
    (ChatGPTClient.extract_messages mapping).Pairwise
      (fun a b => a.create_time.getD 0 ≤ b.create_time.getD 0) := by
  have h := pairwise_pySorted
    (fun a b => decide (ChatGPTClient.sortKey a ≤ ChatGPTClient.sortKey b))
    (fun a b c hab hbc => decide_eq_true
      (le_trans (of_decide_eq_true hab) (of_decide_eq_true hbc)))
    (fun a b => by
      rcases Int.le_total (ChatGPTClient.sortKey a) (ChatGPTClient.sortKey b)
        with h' | h'
      · exact Or.inl (decide_eq_true h')
      · exact Or.inr (decide_eq_true h'))
    (ChatGPTClient.extractLoop mapping)
  exact h.imp (fun hab => of_decide_eq_true hab)

/-- C8: a message is in the `extract_messages` result exactly when it
comes from a mapping node holding a message that is not visually hidden,
has content type `"text"`, and whose joined non-empty parts are not pure
whitespace; the message then carries the node id, the author role, the
joined text, the creation time and the parent link. -/
theorem extract_messages_mem_characterization
    (mapping : ConversationMapping) (m : ExtractedMessage) :
    m ∈ ChatGPTClient.extract_messages mapping ↔
      ∃ node_id node msg, (node_id, node) ∈ mapping ∧
        node.message = some msg ∧
        (msg.metadata.getD
          { is_visually_hidden_from_conversation := false
            }).is_visually_hidden_from_conversation = false ∧
        (msg.content.getD
          { content_type := none, parts := [] }).content_type = some "text" ∧
        (ChatGPTClient.joinParts
          (msg.content.getD { content_type := none, parts := [] }).parts).trim
          ≠ "" ∧
        m = { id := node_id
              role := ChatGPTClient.authorRole msg
              content := ChatGPTClient.joinParts
                (msg.content.getD { content_type := none, parts := [] }).parts
              create_time := msg.create_time
              parent := node.parent } := by
  rw [ChatGPTClient.extract_messages, mem_pySorted, extractLoop_eq_filterMap,
    List.mem_filterMap]
  constructor
  · rintro ⟨⟨node_id, node⟩, hmem, hone⟩
    obtain ⟨omsg, par⟩ := node
    cases omsg with
    | none => simp [extractOne] at hone
    | some msg =>
      simp only [extractOne] at hone
      split_ifs at hone with h1 h2 h3
      simp only [Bool.not_eq_true] at h1
      exact ⟨node_id, ⟨some msg, par⟩, msg, hmem, rfl, h1, h2, h3,
        (Option.some.inj hone).symm⟩
  · rintro ⟨node_id, node, msg, hmem, hmsg, hhid, hct, htr, rfl⟩
    refine ⟨(node_id, node), hmem, ?_⟩
    simp only [extractOne, hmsg]
    rw [if_neg (by simp [hhid]), if_pos hct, if_pos htr]

/-! ## Claims C3 and C6: the fetch client's HTTP behaviour -/

/-- Number of GETs to a given URL inside a request trace. -/
def countUrl (reqs : List Request) (u : String) : Nat :=
  (reqs.filter (fun r => r.url = u)).length

theorem lookupHeader_setHeader (hs : List (String × String)) (k v : String) :
    lookupHeader (setHeader hs k v) k = some v := by
  induction hs with
  | nil => simp [setHeader, lookupHeader]
  | cons h rest ih =>
    obtain ⟨k', v'⟩ := h
    by_cases hk : k' = k
    · simp [setHeader, lookupHeader, hk]
    · simp only [setHeader, hk, if_false]
      simp [lookupHeader, hk, ih]

theorem get_access_token_requests (env : HttpEnv) (c : ChatGPTClient) :
    (ChatGPTClient.get_access_token env c).requests =
      [ChatGPTClient.sessionRequest c] := by
  by_cases h200 : (env (ChatGPTClient.sessionRequest c)).status = 200 <;>
    simp [ChatGPTClient.get_access_token, h200]

/-- The client state after the `if not self.access_token:
self.get_access_token()` preamble shared by `get_conversation` and
`list_conversations`. -/
def authClient (env : HttpEnv) (c : ChatGPTClient) : ChatGPTClient :=
  if c.access_token.truthy = false then
    (ChatGPTClient.get_access_token env c).client
  else c

theorem get_conversation_eq (env : HttpEnv) (c : ChatGPTClient)
    (cid : String) :
    ChatGPTClient.get_conversation env c cid =
      { client := authClient env c
        result :=
          if (env (ChatGPTClient.convRequest (authClient env c) cid)).status
              = 200 then
            some (Json.obj
              (env (ChatGPTClient.convRequest (authClient env c) cid)).body)
          else none
        requests :=
          (if c.access_token.truthy = false then
            [ChatGPTClient.sessionRequest c]
          else []) ++
            [ChatGPTClient.convRequest (authClient env c) cid] } := by
  by_cases ht : c.access_token.truthy = false <;>
    simp [ChatGPTClient.get_conversation, authClient, ht,
      get_access_token_requests]

theorem list_conversations_eq (env : HttpEnv) (c : ChatGPTClient)
    (limit offset : Int) :
    ChatGPTClient.list_conversations env c limit offset =
      { client := authClient env c
        result :=
          if (env (ChatGPTClient.listRequest (authClient env c) limit
              offset)).status = 200 then
            some (Json.obj (env (ChatGPTClient.listRequest (authClient env c)
              limit offset)).body)
          else none
        requests :=
          (if c.access_token.truthy = false then
            [ChatGPTClient.sessionRequest c]
          else []) ++
            [ChatGPTClient.listRequest (authClient env c) limit offset] } := by
  by_cases ht : c.access_token.truthy = false <;>
    simp [ChatGPTClient.list_conversations, authClient, ht,
      get_access_token_requests]

theorem sessionUrl_ne_convUrl (cid : String) :
    ChatGPTClient.BASE_URL ++ "/api/auth/session" ≠
      ChatGPTClient.BASE_URL ++ "/backend-api/conversation/" ++ cid := by
  intro h
  have hl := congrArg (fun s => s.data.length) h
  simp [String.data_append, List.length_append] at hl

theorem sessionUrl_ne_listUrl :
    ChatGPTClient.BASE_URL ++ "/api/auth/session" ≠
      ChatGPTClient.BASE_URL ++ "/backend-api/conversations" := by
  decide

/-- C3: a fresh `ChatGPTClient` starts with `access_token = None`; when
`get_conversation` or `list_conversations` runs with no access token it
first GETs the session endpoint and only then its own endpoint, and a
successful session response with a (truthy) `accessToken` installs the
bearer token as the `authorization` header used by that second GET. -/
theorem client_authenticates_before_fetch (env : HttpEnv)
    (ck : List (String × String)) (c : ChatGPTClient) (cid : String)
    (limit offset : Int) (h : c.access_token = Json.null) :
    (ChatGPTClient.init ck).access_token = Json.null
    ∧ (ChatGPTClient.get_conversation env c cid).requests =
        [ChatGPTClient.sessionRequest c,
         ChatGPTClient.convRequest
           (ChatGPTClient.get_access_token env c).client cid]
    ∧ (ChatGPTClient.list_conversations env c limit offset).requests =
        [ChatGPTClient.sessionRequest c,
         ChatGPTClient.listRequest
           (ChatGPTClient.get_access_token env c).client limit offset]
    ∧ ((env (ChatGPTClient.sessionRequest c)).status = 200 →
        (Json.dictGet (env (ChatGPTClient.sessionRequest c)).body
          "accessToken").truthy = true →
        lookupHeader
          (ChatGPTClient.get_access_token env c).client.headers
          "authorization" =
          some ("Bearer " ++
            (Json.dictGet (env (ChatGPTClient.sessionRequest c)).body
              "accessToken").pyStr)) := by
  have ht : c.access_token.truthy = false := by rw [h]; rfl
  refine ⟨rfl, ?_, ?_, ?_⟩
  · rw [get_conversation_eq]
    simp [authClient, ht]
  · rw [list_conversations_eq]
    simp [authClient, ht]
  · intro h200 htr
    simp only [ChatGPTClient.get_access_token, h200, if_true, htr]
    exact lookupHeader_setHeader c.headers "authorization" _

/-- An HTTP world that always answers 200 with an access token. -/
def envOk : HttpEnv := fun _ =>
  { status := 200, body := [("accessToken", Json.str "tok")] }

/-- Witness for C3 at a concrete input: against `envOk`, a fresh client's
`get_conversation` issues the session GET first and sends
`authorization: Bearer tok` on the conversation GET. -/
theorem client_authenticates_before_fetch_witness :
    (ChatGPTClient.init []).access_token = Json.null ∧
    (ChatGPTClient.get_conversation envOk (ChatGPTClient.init [])
        "c1").requests =
      [ChatGPTClient.sessionRequest (ChatGPTClient.init []),
       ChatGPTClient.convRequest
         (ChatGPTClient.get_access_token envOk (ChatGPTClient.init [])).client
         "c1"] ∧
    lookupHeader
      (ChatGPTClient.get_access_token envOk
        (ChatGPTClient.init [])).client.headers "authorization" =
      some "Bearer tok" := by
  have h := client_authenticates_before_fetch envOk []
    (ChatGPTClient.init []) "c1" 20 0 rfl
  exact ⟨h.1, h.2.1, h.2.2.2 rfl rfl⟩

/-- C6: each client method issues the GET to its own endpoint exactly once
per call (no retry); `get_access_token` returns `None` on a non-200
response and on a 200 response without an `accessToken` key, and
`get_conversation` / `list_conversations` return `None` whenever their
GET's response status is not 200. -/
theorem single_request_and_none_on_failure (env : HttpEnv)
    (c : ChatGPTClient) (cid : String) (limit offset : Int) :
    (ChatGPTClient.get_access_token env c).requests =
      [ChatGPTClient.sessionRequest c]
    ∧ countUrl (ChatGPTClient.get_conversation env c cid).requests
        (ChatGPTClient.BASE_URL ++ "/backend-api/conversation/" ++ cid) = 1
    ∧ countUrl (ChatGPTClient.list_conversations env c limit offset).requests
        (ChatGPTClient.BASE_URL ++ "/backend-api/conversations") = 1
    ∧ ((env (ChatGPTClient.sessionRequest c)).status ≠ 200 →
        (ChatGPTClient.get_access_token env c).result = Json.null)
    ∧ ((env (ChatGPTClient.sessionRequest c)).status = 200 →
        Json.lookupKey (env (ChatGPTClient.sessionRequest c)).body
          "accessToken" = none →
        (ChatGPTClient.get_access_token env c).result = Json.null)
    ∧ ((env (ChatGPTClient.convRequest
          (ChatGPTClient.get_conversation env c cid).client cid)).status
            ≠ 200 →
        (ChatGPTClient.get_conversation env c cid).result = none)
    ∧ ((env (ChatGPTClient.listRequest
          (ChatGPTClient.list_conversations env c limit offset).client
          limit offset)).status ≠ 200 →
        (ChatGPTClient.list_conversations env c limit offset).result
          = none) := by
  refine ⟨get_access_token_requests env c, ?_, ?_, ?_, ?_, ?_, ?_⟩
  · have hne := sessionUrl_ne_convUrl cid
    by_cases ht : c.access_token.truthy = false <;>
      simp [get_conversation_eq, countUrl, ht,
        ChatGPTClient.sessionRequest, ChatGPTClient.convRequest, hne]
  · have hne := sessionUrl_ne_listUrl
    by_cases ht : c.access_token.truthy = false <;>
      simp [list_conversations_eq, countUrl, ht,
        ChatGPTClient.sessionRequest, ChatGPTClient.listRequest, hne]
  · intro hne
    simp [ChatGPTClient.get_access_token, hne]
  · intro h200 hkey
    simp [ChatGPTClient.get_access_token, h200, Json.dictGet, hkey]
  · intro hne
    rw [get_conversation_eq] at hne ⊢
    simp only at hne ⊢
    simp [hne]
  · intro hne
    rw [list_conversations_eq] at hne ⊢
    simp only at hne ⊢
    simp [hne]

/-- An HTTP world that always answers 500. -/
def envFail : HttpEnv := fun _ => { status := 500, body := [] }

/-- Witness for C6 at a concrete input: against `envFail`, each call
issues its GET exactly once and returns `None`. -/
theorem single_request_and_none_on_failure_witness :
    (ChatGPTClient.get_access_token envFail (ChatGPTClient.init [])).requests
      = [ChatGPTClient.sessionRequest (ChatGPTClient.init [])] ∧
    countUrl (ChatGPTClient.get_conversation envFail (ChatGPTClient.init [])
        "c1").requests
      (ChatGPTClient.BASE_URL ++ "/backend-api/conversation/" ++ "c1") = 1 ∧
    (ChatGPTClient.get_access_token envFail
      (ChatGPTClient.init [])).result = Json.null ∧
    (ChatGPTClient.get_conversation envFail (ChatGPTClient.init [])
      "c1").result = none := by
  have h := single_request_and_none_on_failure envFail
    (ChatGPTClient.init []) "c1" 20 0
  exact ⟨h.1, h.2.1, h.2.2.2.1 (by decide), h.2.2.2.2.2.1 (by decide)⟩

/-! ## Claim C4: the archive list page -/

/-- A Python value that supports slicing (`x[:n]`): a string or a list. -/
def sliceable : Json → Bool
  | .str _ => true
  | .arr _ => true
  | _ => false

/-- A loaded conversation on which the card f-string does not raise: it
has an `id` key and its `tags`, `saved_at` and `summary` values (when
present) support the slicing the card performs. -/
def convRenderable (conv : Json) : Bool :=
  match conv with
  | .obj kvs =>
    (Json.lookupKey kvs "id").isSome
      && sliceable ((Json.lookupKey kvs "tags").getD (.arr []))
      && sliceable ((Json.lookupKey kvs "saved_at").getD (.str ""))
      && sliceable ((Json.lookupKey kvs "summary").getD (.str ""))
  | _ => false

theorem sliceable_pySliceTo (j : Json) (n : Nat) (h : sliceable j = true) :
    ∃ j', Json.pySliceTo j n = some j' ∧ sliceable j' = true := by
  cases j <;> simp [sliceable] at h ⊢ <;> simp [Json.pySliceTo]

theorem sliceable_pyIter (j : Json) (h : sliceable j = true) :
    (Json.pyIter j).isSome := by
  cases j <;> simp [sliceable] at h ⊢ <;> simp [Json.pyIter]

theorem sliceable_pyLen (j : Json) (h : sliceable j = true) :
    (Json.pyLen j).isSome := by
  cases j <;> simp [sliceable] at h ⊢ <;> simp [Json.pyLen]

theorem convCard_isSome_of_renderable (conv : Json)
    (h : convRenderable conv = true) : (WebUI.convCard conv).isSome := by
  cases conv with
  | obj kvs =>
    simp only [convRenderable, Bool.and_eq_true] at h
    obtain ⟨⟨⟨hid, htags⟩, hsaved⟩, hsum⟩ := h
    obtain ⟨idv, hidv⟩ := Option.isSome_iff_exists.mp hid
    obtain ⟨t3, ht3, ht3s⟩ := sliceable_pySliceTo _ 3 htags
    obtain ⟨ti, hti⟩ :=
      Option.isSome_iff_exists.mp (sliceable_pyIter _ ht3s)
    obtain ⟨sv, hsv, _⟩ := sliceable_pySliceTo _ 10 hsaved
    obtain ⟨s200, hs200, _⟩ := sliceable_pySliceTo _ 200 hsum
    obtain ⟨sl, hsl⟩ :=
      Option.isSome_iff_exists.mp (sliceable_pyLen _ hsum)
    simp [WebUI.convCard, ht3, hti, hsv, hidv, hs200, hsl]
  | null => simp [convRenderable] at h
  | bool b => simp [convRenderable] at h
  | num n => simp [convRenderable] at h
  | str s => simp [convRenderable] at h
  | arr xs => simp [convRenderable] at h

theorem renderCards_length (l : List Json)
    (h : ∀ conv ∈ l, convRenderable conv = true) :
    ∃ cards, WebUI.renderCards l = some cards ∧ cards.length = l.length := by
  induction l with
  | nil => exact ⟨[], rfl, rfl⟩
  | cons conv rest ih =>
    obtain ⟨card, hcard⟩ := Option.isSome_iff_exists.mp
      (convCard_isSome_of_renderable conv (h conv (List.mem_cons_self _ _)))
    obtain ⟨cards, hcards, hlen⟩ :=
      ih (fun z hz => h z (List.mem_cons_of_mem _ hz))
    exact ⟨card :: cards, by simp [WebUI.renderCards, hcard, hcards],
      by simp [hlen]⟩

/-- C4 (amended): every `*.json` file of a date subdirectory whose content
parses as a JSON object appears (tagged with its `_file` path) in the list
loaded by `get_all_conversations`; and when every loaded conversation is
renderable (has an `id` key and sliceable `summary`/`saved_at`/`tags`),
the list page renders exactly one card per loaded conversation. -/
theorem get_all_conversations_complete (fs : ArchiveFS) :
    (∀ dn files n kvs, (dn, files) ∈ fs →
      (n, some (Json.obj kvs)) ∈ files → hasJsonExt n = true →
      Json.obj (Json.upsertKey kvs "_file"
        (Json.str ("archive/" ++ dn ++ "/" ++ n))) ∈
        WebUI.get_all_conversations fs)
    ∧ ((∀ conv ∈ WebUI.get_all_conversations fs,
          convRenderable conv = true) →
        ∃ cards,
          WebUI.renderCards (WebUI.get_all_conversations fs) = some cards
          ∧ cards.length = (WebUI.get_all_conversations fs).length) := by
  constructor
  · intro dn files n kvs hdir hfile hext
    unfold WebUI.get_all_conversations
    rw [List.mem_flatMap]
    refine ⟨(dn, files), (mem_pySorted _ _ _).mpr hdir, ?_⟩
    rw [List.mem_filterMap]
    exact ⟨(n, some (Json.obj kvs)),
      (mem_pySorted _ _ _).mpr (List.mem_filter.mpr ⟨hfile, hext⟩), rfl⟩
  · exact renderCards_length _

/-- Witness for C4 at a concrete input: an archive with one saved object
file; the object appears in the loaded list and the page has one card. -/
theorem get_all_conversations_complete_witness :
    Json.obj (Json.upsertKey [("id", Json.str "aa")] "_file"
      (Json.str ("archive/" ++ "2025-12-01" ++ "/" ++ "aa.json"))) ∈
      WebUI.get_all_conversations
        [("2025-12-01", [("aa.json", some (Json.obj [("id", Json.str "aa")]))])]
    ∧ ∃ cards,
        WebUI.renderCards (WebUI.get_all_conversations
          [("2025-12-01",
            [("aa.json", some (Json.obj [("id", Json.str "aa")]))])])
          = some cards
        ∧ cards.length = (WebUI.get_all_conversations
            [("2025-12-01",
              [("aa.json", some (Json.obj [("id", Json.str "aa")]))])]).length
    := by
  have h := get_all_conversations_complete
    [("2025-12-01", [("aa.json", some (Json.obj [("id", Json.str "aa")]))])]
  refine ⟨h.1 "2025-12-01"
    [("aa.json", some (Json.obj [("id", Json.str "aa")]))]
    "aa.json" [("id", Json.str "aa")] (by simp) (by simp) (by decide),
    h.2 ?_⟩
  intro conv hconv
  have : WebUI.get_all_conversations
      [("2025-12-01", [("aa.json", some (Json.obj [("id", Json.str "aa")]))])]
      = [Json.obj [("id", Json.str "aa"),
          ("_file", Json.str "archive/2025-12-01/aa.json")]] := rfl
  rw [this] at hconv
  rcases List.mem_singleton.mp hconv with rfl
  decide

/-- The archive refuting C4 as stated: `a.json` parses as a JSON array,
`b.json` as an object with no `id` key. -/
def cexArchive : ArchiveFS :=
  [("2025-12-01",
    [("a.json", some (Json.arr [Json.num 1])),
     ("b.json", some (Json.obj [("title", Json.str "t")]))])]

/-- C4 counterexample: the parsed content of `a.json` (a JSON array) never
appears in the loaded list, and although one conversation is loaded the
list page raises (renders no cards) because `b.json` has no `id` key. -/
theorem get_all_conversations_counterexample :
    WebUI.get_all_conversations cexArchive =
      [Json.obj [("title", Json.str "t"),
        ("_file", Json.str "archive/2025-12-01/b.json")]]
    ∧ Json.arr [Json.num 1] ∉ WebUI.get_all_conversations cexArchive
    ∧ WebUI.renderCards (WebUI.get_all_conversations cexArchive) = none
    ∧ WebUI.home cexArchive = none := by
  have h1 : WebUI.get_all_conversations cexArchive =
      [Json.obj [("title", Json.str "t"),
        ("_file", Json.str "archive/2025-12-01/b.json")]] := rfl
  refine ⟨h1, ?_, rfl, rfl⟩
  rw [h1]
  simp

/-! ## Claim C9: save/load round trip -/

theorem writeFile_eq_append (n : String) (c : Option Json) :
    ∀ files : List ArchFile, (∀ f ∈ files, f.1 ≠ n) →
      fsWrite.writeFile files n c = files ++ [(n, c)]
  | [], _ => rfl
  | f :: rest, h => by
    have hf : f.1 ≠ n := h f (List.mem_cons_self _ _)
    simp only [fsWrite.writeFile, hf, if_false]
    rw [writeFile_eq_append n c rest
      (fun g hg => h g (List.mem_cons_of_mem _ hg))]
    simp

theorem find?_filter_none_of_no_match (cid : String)
    (files : List ArchFile)
    (h : ∀ f ∈ files, pyIn cid f.1 = false) :
    (files.filter (fun f => hasJsonExt f.1)).find?
      (fun f => pyIn cid f.1) = none := by
  rw [List.find?_eq_none]
  intro f hf
  have := h f (List.mem_filter.mp hf).1
  simp [this]

theorem web_get_conversation_fsWrite_fresh (date cid : String)
    (payload : Json) :
    ∀ fs : ArchiveFS,
      (∀ dn files, (dn, files) ∈ fs → ∀ f ∈ files, pyIn cid f.1 = false) →
      WebUI.get_conversation (fsWrite fs date (cid ++ ".json")
        (some payload)) cid = .ok (some payload)
  | [], _ => by
    simp [WebUI.get_conversation, fsWrite, hasJsonExt_append, pyIn_self_ext]
  | (dn, files) :: rest, h => by
    have hfiles := h dn files (List.mem_cons_self _ _)
    have hrest : ∀ dn' files', (dn', files') ∈ rest →
        ∀ f ∈ files', pyIn cid f.1 = false :=
      fun dn' files' hm => h dn' files' (List.mem_cons_of_mem _ hm)
    by_cases hd : dn = date
    · have hkeys : ∀ f ∈ files, f.1 ≠ cid ++ ".json" := by
        intro f hf he
        have := hfiles f hf
        rw [he, pyIn_self_ext] at this
        cases this
      simp only [fsWrite, hd, if_true]
      simp only [WebUI.get_conversation,
        writeFile_eq_append (cid ++ ".json") (some payload) files hkeys]
      rw [List.filter_append, List.find?_append,
        find?_filter_none_of_no_match cid files hfiles]
      simp [hasJsonExt_append, pyIn_self_ext]
    · simp only [fsWrite, hd, if_false]
      simp only [WebUI.get_conversation,
        find?_filter_none_of_no_match cid files hfiles]
      exact web_get_conversation_fsWrite_fresh date cid payload rest hrest

/-- C9: saving a conversation with a fresh identifier `cid` (no archive
file name contains `cid`) and then reading the archive back through the
web UI's `get_conversation(cid)` returns exactly the saved payload, whose
`title`, `summary`, `messages`, `tags`, `key_points` and `message_count`
fields equal the saved values, with `message_count` the number of
messages. -/
theorem save_then_web_get_roundtrip
    (archive : ArchiveFS) (cid iso date title summary : String)
    (messages : List Json) (tags key_points : Option (List String))
    (out : McpServer.SaveOutcome)
    (hout : out = McpServer.save_conversation archive cid iso date title
      summary messages tags key_points)
    (hfresh : ∀ dn files, (dn, files) ∈ archive →
      ∀ f ∈ files, pyIn cid f.1 = false) :
    WebUI.get_conversation out.archive cid = .ok (some out.payload)
    ∧ out.payload.getField "title" = some (.str title)
    ∧ out.payload.getField "summary" = some (.str summary)
    ∧ out.payload.getField "messages" = some (.arr messages)
    ∧ out.payload.getField "tags" =
        some (.arr ((tags.getD []).map Json.str))
    ∧ out.payload.getField "key_points" =
        some (.arr ((key_points.getD []).map Json.str))
    ∧ out.payload.getField "message_count" =
        some (.num messages.length) := by
  subst hout
  exact ⟨web_get_conversation_fsWrite_fresh date cid _ archive hfresh,
    rfl, rfl, rfl, rfl, rfl, rfl⟩

/-- Witness for C9 at a concrete input: saving `"abc"` next to an existing
unrelated file and reading it back through the web UI returns the payload
with the saved title and count. -/
theorem save_then_web_get_roundtrip_witness :
    WebUI.get_conversation (McpServer.save_conversation
        [("2025-01-01", [("old.json", some (Json.obj []))])]
        "abc" "2025-12-01T00:00:00" "2025-12-01" "T" "S"
        [Json.obj [("role", Json.str "user")]] none none).archive "abc"
      = .ok (some (McpServer.save_conversation
        [("2025-01-01", [("old.json", some (Json.obj []))])]
        "abc" "2025-12-01T00:00:00" "2025-12-01" "T" "S"
        [Json.obj [("role", Json.str "user")]] none none).payload)
    ∧ (McpServer.save_conversation
        [("2025-01-01", [("old.json", some (Json.obj []))])]
        "abc" "2025-12-01T00:00:00" "2025-12-01" "T" "S"
        [Json.obj [("role", Json.str "user")]] none none).payload.getField
        "message_count" = some (Json.num 1) := by
  have h := save_then_web_get_roundtrip
    [("2025-01-01", [("old.json", some (Json.obj []))])]
    "abc" "2025-12-01T00:00:00" "2025-12-01" "T" "S"
    [Json.obj [("role", Json.str "user")]] none none _ rfl
    (by
      intro dn files hm f hf
      simp only [List.mem_singleton] at hm
      obtain ⟨rfl, rfl⟩ := Prod.mk.injEq .. ▸ hm
      simp only [List.mem_singleton] at hf
      subst hf
      decide)
  exact ⟨h.1, h.2.2.2.2.2.2⟩

/-! ## Claim C10: substring matching in the web UI lookup -/

theorem web_get_ok_none_iff (cid : String) :
    ∀ fs : ArchiveFS,
      (WebUI.get_conversation fs cid = .ok none ↔
        ∀ dn files, (dn, files) ∈ fs → ∀ f ∈ files,
          hasJsonExt f.1 = true → pyIn cid f.1 = false)
  | [] => by simp [WebUI.get_conversation]
  | (dn, files) :: rest => by
    cases hf : (files.filter (fun f => hasJsonExt f.1)).find?
        (fun f => pyIn cid f.1) with
    | some f =>
      have hmem := List.mem_filter.mp (List.mem_of_find?_eq_some hf)
      have hmatch : pyIn cid f.1 = true := by
        simpa using List.find?_some hf
      simp only [WebUI.get_conversation, hf]
      constructor
      · intro h
        exfalso
        cases hc : f.2 with
        | some j => rw [hc] at h; simp at h
        | none => rw [hc] at h; simp at h
      · intro h
        exfalso
        have := h dn files (List.mem_cons_self _ _) f hmem.1 hmem.2
        rw [hmatch] at this
        cases this
    | none =>
      simp only [WebUI.get_conversation, hf]
      rw [web_get_ok_none_iff cid rest]
      constructor
      · intro h dn' files' hm f hfl hext
        rcases List.mem_cons.mp hm with he | hm'
        · obtain ⟨rfl, rfl⟩ := Prod.mk.injEq .. ▸ he
          have := List.find?_eq_none.mp hf f
            (List.mem_filter.mpr ⟨hfl, hext⟩)
          simpa using this
        · exact h dn' files' hm' f hfl hext
      · intro h dn' files' hm f hfl hext
        exact h dn' files' (List.mem_cons_of_mem _ hm) f hfl hext

theorem web_get_ok_some_mem (cid : String) (j : Json) :
    ∀ fs : ArchiveFS, WebUI.get_conversation fs cid = .ok (some j) →
      ∃ dn files f, (dn, files) ∈ fs ∧ f ∈ files ∧ f.2 = some j ∧
        hasJsonExt f.1 = true ∧ pyIn cid f.1 = true
  | [] => by simp [WebUI.get_conversation]
  | (dn, files) :: rest => by
    intro h
    cases hf : (files.filter (fun f => hasJsonExt f.1)).find?
        (fun f => pyIn cid f.1) with
    | some f =>
      have hmem := List.mem_filter.mp (List.mem_of_find?_eq_some hf)
      have hmatch : pyIn cid f.1 = true := by
        simpa using List.find?_some hf
      simp only [WebUI.get_conversation, hf] at h
      cases hc : f.2 with
      | some j' =>
        rw [hc] at h
        simp only [Except.ok.injEq, Option.some.injEq] at h
        subst h
        exact ⟨dn, files, f, List.mem_cons_self _ _, hmem.1, hc,
          hmem.2, hmatch⟩
      | none => rw [hc] at h; simp at h
    | none =>
      simp only [WebUI.get_conversation, hf] at h
      obtain ⟨dn', files', f, hm, hfl, hc, hext, hmatch⟩ :=
        web_get_ok_some_mem cid j rest h
      exact ⟨dn', files', f, List.mem_cons_of_mem _ hm, hfl, hc, hext,
        hmatch⟩

theorem conversation_detail_404_iff (fs : ArchiveFS) (cid : String) :
    WebUI.conversationDetailStatus fs cid = .ok 404 ↔
      (WebUI.get_conversation fs cid = .ok none ∨
        ∃ j, WebUI.get_conversation fs cid = .ok (some j) ∧
          j.falsy = true) := by
  unfold WebUI.conversationDetailStatus WebUI.conversation_detail
  cases hg : WebUI.get_conversation fs cid with
  | error e => cases e; simp [Except.map]
  | ok conv =>
    cases conv with
    | none => simp [Except.map]
    | some j =>
      by_cases hfal : j.falsy = true
      · simp [hfal, Except.map]
      · cases hd : WebUI.detailPage j with
        | some body => simp [hfal, hd, Except.map]
        | none => simp [hfal, hd, Except.map]

/-- C10 (amended): `web_ui.get_conversation` matches by substring
containment: it returns `None` exactly when no `*.json` file name in the
archive contains `conv_id`; when it returns a conversation, that is the
parsed content of a `*.json` file whose name contains `conv_id` (a first
matching file that is not valid JSON makes it raise instead); the detail
route answers 404 exactly when the lookup yields `None` or a falsy value
(such as an empty JSON object); and with any `*.json` file present, the
empty string never yields `None`. -/
theorem web_get_conversation_substring_semantics (fs : ArchiveFS)
    (cid : String) :
    (WebUI.get_conversation fs cid = .ok none ↔
      ∀ dn files, (dn, files) ∈ fs → ∀ f ∈ files,
        hasJsonExt f.1 = true → pyIn cid f.1 = false)
    ∧ (∀ j, WebUI.get_conversation fs cid = .ok (some j) →
        ∃ dn files f, (dn, files) ∈ fs ∧ f ∈ files ∧ f.2 = some j ∧
          hasJsonExt f.1 = true ∧ pyIn cid f.1 = true)
    ∧ (WebUI.conversationDetailStatus fs cid = .ok 404 ↔
        (WebUI.get_conversation fs cid = .ok none ∨
          ∃ j, WebUI.get_conversation fs cid = .ok (some j) ∧
            j.falsy = true))
    ∧ ((∃ dn files f, (dn, files) ∈ fs ∧ f ∈ files ∧
          hasJsonExt f.1 = true) →
        WebUI.get_conversation fs "" ≠ .ok none) := by
  refine ⟨web_get_ok_none_iff cid fs, fun j => web_get_ok_some_mem cid j fs,
    conversation_detail_404_iff fs cid, ?_⟩
  intro h hnone
  obtain ⟨dn, files, f, hm, hfl, hext⟩ := h
  have := (web_get_ok_none_iff "" fs).mp hnone dn files hm f hfl hext
  rw [pyIn_empty] at this
  cases this

/-- Witness for C10 at concrete inputs: in an archive holding only
`abc.json`, looking up the proper substring `"ab"` finds that file, and
looking up `"zz"` makes the detail route answer 404. -/
theorem web_get_conversation_substring_semantics_witness :
    (∃ dn files f, (dn, files) ∈
        [("d", [("abc.json", some (Json.obj [("id", Json.str "abc")]))])]
      ∧ f ∈ files ∧ f.2 = some (Json.obj [("id", Json.str "abc")]) ∧
        hasJsonExt f.1 = true ∧ pyIn "ab" f.1 = true)
    ∧ WebUI.conversationDetailStatus
        [("d", [("abc.json", some (Json.obj [("id", Json.str "abc")]))])]
        "zz" = .ok 404 := by
  have h := web_get_conversation_substring_semantics
    [("d", [("abc.json", some (Json.obj [("id", Json.str "abc")]))])] "ab"
  have h2 := web_get_conversation_substring_semantics
    [("d", [("abc.json", some (Json.obj [("id", Json.str "abc")]))])] "zz"
  exact ⟨h.2.1 (Json.obj [("id", Json.str "abc")]) rfl,
    h2.2.2.1.mpr (Or.inl rfl)⟩

/-- C10 counterexample: with `abc.json` containing the falsy JSON object
`{}` the detail route answers 404 for `"abc"` even though a matching file
name exists (and the lookup returned that conversation, not `None`); and
with an `xyz.json` that is not valid JSON, looking up `"xyz"` raises
instead of returning any file's contents. -/
theorem web_get_conversation_counterexample :
    WebUI.conversationDetailStatus
      [("d", [("abc.json", some (Json.obj []))])] "abc" = .ok 404
    ∧ pyIn "abc" "abc.json" = true
    ∧ hasJsonExt "abc.json" = true
    ∧ WebUI.get_conversation [("d", [("abc.json", some (Json.obj []))])]
        "abc" = .ok (some (Json.obj []))
    ∧ WebUI.get_conversation [("d2", [("xyz.json", (none : Option Json))])]
        "xyz" = .error () := by
  exact ⟨rfl, by decide, by decide, rfl, rfl⟩
